import Mathlib

/-!
# Verification of the ClaimPlum OPD claim adjudication core

Shallow embedding of the adjudication decision engine
(`backend/services/adjudication_engine.py`), the fraud signal detector
(`backend/services/fraud_detector.py`) and the policy rule provider
(`backend/services/policy_service.py`), together with the data model
(`backend/models/decision.py`, `backend/models/claim_data.py`).

Monetary amounts and percentages are modelled as rationals; Python string
operations (lowercasing, substring membership, `str.split`) are modelled by
structural functions over `List Char`; Python `datetime.strptime(s, "%Y-%m-%d")`
is modelled by an explicit `YYYY-MM-DD` parser and day-number arithmetic.
Numeric interpolation inside human-readable strings (`f"... {x:.2f} ..."`)
is rendered with a plain rational printer; no theorem depends on the exact
numeral text.
-/

namespace ClaimPlum

/-! ## String utilities (Python `.lower()`, `in`, `.split('-')`) -/

/-- Is `pre` a prefix of `l`? Structural, so it reduces in the kernel. -/
def startsWithChars : List Char → List Char → Bool
  | [], _ => true
  | _ :: _, [] => false
  | a :: as, b :: bs => a == b && startsWithChars as bs

/-- Does `hay` contain `needle` as a contiguous sublist?  Models Python
`needle in hay` on strings. -/
def charsContain (needle : List Char) : List Char → Bool
  | [] => startsWithChars needle []
  | c :: cs => startsWithChars needle (c :: cs) || charsContain needle cs

/-- Python `needle in hay` for strings. -/
def strIn (needle hay : String) : Bool :=
  charsContain needle.data hay.data

/-- Python `s.lower()` (ASCII, which covers every string the engine builds). -/
def lowerStr (s : String) : String :=
  String.mk (s.data.map Char.toLower)

/-- Does the string contain the character `c`? -/
def strHasChar (s : String) (c : Char) : Bool :=
  s.data.any (fun a => a == c)

/-- Split a character list at a separator, keeping empty segments
(Python `s.split('-')` semantics). -/
def splitCharAux (sep : Char) (cur : List Char) : List Char → List (List Char)
  | [] => [cur.reverse]
  | c :: cs =>
    if c == sep then cur.reverse :: splitCharAux sep [] cs
    else splitCharAux sep (c :: cur) cs

/-- Python truthiness of an optional string: `None` and `""` are falsy. -/
def pyTruthy : Option String → Option String
  | none => none
  | some s => if s = "" then none else some s

/-! ## Dates: `datetime.strptime(s, "%Y-%m-%d")` and day arithmetic -/

/-- A parsed calendar date. -/
structure Date where
  year : Nat
  month : Nat
  day : Nat
deriving DecidableEq, Repr

def isDigitChar (c : Char) : Bool := '0' ≤ c && c ≤ '9'

def digitsToNatAux : List Char → Nat → Nat
  | [], acc => acc
  | c :: cs, acc => digitsToNatAux cs (acc * 10 + (c.toNat - 48))

def digitsToNat (l : List Char) : Nat := digitsToNatAux l 0

def isLeapYear (y : Nat) : Bool :=
  y % 4 == 0 && (y % 100 != 0 || y % 400 == 0)

def daysInMonth (y m : Nat) : Nat :=
  if m == 2 then (if isLeapYear y then 29 else 28)
  else if m == 4 || m == 6 || m == 9 || m == 11 then 30
  else 31

/-- `datetime.strptime(s, "%Y-%m-%d")`: four-digit year, one/two-digit month
and day, ranges validated by the `datetime` constructor (year ≥ 1, real
calendar day).  Returns `none` where Python raises `ValueError`. -/
def parseDate (s : String) : Option Date :=
  match splitCharAux '-' [] s.data with
  | [ys, ms, ds] =>
    if ys.length == 4 && ys.all isDigitChar
        && decide (1 ≤ ms.length) && decide (ms.length ≤ 2) && ms.all isDigitChar
        && decide (1 ≤ ds.length) && decide (ds.length ≤ 2) && ds.all isDigitChar then
      let y := digitsToNat ys
      let m := digitsToNat ms
      let d := digitsToNat ds
      if decide (1 ≤ y) && decide (1 ≤ m) && decide (m ≤ 12)
          && decide (1 ≤ d) && decide (d ≤ daysInMonth y m) then
        some ⟨y, m, d⟩
      else none
    else none
  | _ => none

/-- Day number of a civil date (Howard Hinnant's `days_from_civil`); the
difference of two day numbers is Python's `(d2 - d1).days`. -/
def dayNumber (dt : Date) : Int :=
  let y : Int := if dt.month ≤ 2 then (dt.year : Int) - 1 else (dt.year : Int)
  let era : Int := (if 0 ≤ y then y else y - 399) / 400
  let yoe : Int := y - era * 400
  let mp : Int := ((dt.month : Int) + 9) % 12
  let doy : Int := (153 * mp + 2) / 5 + (dt.day : Int) - 1
  let doe : Int := yoe * 365 + yoe / 4 - yoe / 100 + doy
  era * 146097 + doe - 719468

/-- Civil date of a day number (Howard Hinnant's `civil_from_days`). -/
def dateOfDayNumber (n : Int) : Date :=
  let z : Int := n + 719468
  let era : Int := (if 0 ≤ z then z else z - 146096) / 146097
  let doe : Int := z - era * 146097
  let yoe : Int := (doe - doe / 1460 + doe / 36524 - doe / 146096) / 365
  let y : Int := yoe + era * 400
  let doy : Int := doe - (365 * yoe + yoe / 4 - yoe / 100)
  let mp : Int := (5 * doy + 2) / 153
  let d : Int := doy - (153 * mp + 2) / 5 + 1
  let m : Int := mp + (if mp < 10 then 3 else -9)
  ⟨(y + (if m ≤ 2 then 1 else 0)).toNat, m.toNat, d.toNat⟩

def padNum (width : Nat) (n : Nat) : String :=
  let r := toString n
  String.mk (List.replicate (width - r.length) '0') ++ r

/-- `date.strftime("%Y-%m-%d")`. -/
def renderDate (dt : Date) : String :=
  padNum 4 dt.year ++ "-" ++ padNum 2 dt.month ++ "-" ++ padNum 2 dt.day

/-! ## Exact fraction arithmetic

Python evaluates the engine's monetary formulas in floating point; every
quantity the engine manipulates is a small decimal, so the embedding uses
exact rational arithmetic.  Mathlib's `Rat` cannot be evaluated by the
kernel (its normalisation is defined by well-founded recursion), so the
embedding carries its own canonical-fraction type whose gcd runs on
structural fuel; `natGcd_eq_gcd` below checks it against `Nat.gcd`. -/

def natGcdAux : Nat → Nat → Nat → Nat
  | 0, _, y => y
  | _ + 1, 0, y => y
  | fuel + 1, x + 1, y => natGcdAux fuel (y % (x + 1)) (x + 1)

/-- `Nat.gcd` restated with structural recursion on a fuel argument, so that
the kernel can evaluate it. -/
def natGcd (x y : Nat) : Nat := natGcdAux (x + 1) x y

theorem natGcdAux_eq_gcd (fuel x y : Nat) (h : x < fuel) :
    natGcdAux fuel x y = Nat.gcd x y := by
  induction fuel generalizing x y with
  | zero => omega
  | succ fuel ih =>
    cases x with
    | zero => simp [natGcdAux]
    | succ x =>
      rw [natGcdAux, Nat.gcd_succ]
      exact ih _ _ (by have := Nat.mod_lt y (show 0 < x + 1 by omega); omega)

theorem natGcd_eq_gcd (x y : Nat) : natGcd x y = Nat.gcd x y :=
  natGcdAux_eq_gcd _ _ _ (Nat.lt_succ_self x)

/-- An exact fraction; every constructor used by the embedding produces the
canonical lowest-terms form with a positive denominator. -/
structure Frac where
  num : Int
  den : Nat
deriving DecidableEq, Repr

/-- Reduce a numerator/denominator pair to lowest terms. -/
def Frac.norm (n : Int) (d : Nat) : Frac :=
  let g := natGcd n.natAbs d
  if g == 0 then ⟨0, 1⟩ else ⟨n / (g : Int), d / g⟩

def Frac.ofInt (n : Int) : Frac := ⟨n, 1⟩

instance (n : Nat) : OfNat Frac n := ⟨⟨(n : Int), 1⟩⟩

instance : Neg Frac := ⟨fun a => ⟨-a.num, a.den⟩⟩

instance : Add Frac :=
  ⟨fun a b => Frac.norm (a.num * (b.den : Int) + b.num * (a.den : Int)) (a.den * b.den)⟩

instance : Sub Frac :=
  ⟨fun a b => Frac.norm (a.num * (b.den : Int) - b.num * (a.den : Int)) (a.den * b.den)⟩

instance : Mul Frac := ⟨fun a b => Frac.norm (a.num * b.num) (a.den * b.den)⟩

instance : Div Frac :=
  ⟨fun a b =>
    if b.num = 0 then ⟨0, 1⟩
    else if 0 ≤ b.num then Frac.norm (a.num * (b.den : Int)) (a.den * b.num.toNat)
    else Frac.norm (-(a.num * (b.den : Int))) (a.den * (-b.num).toNat)⟩

instance : LE Frac := ⟨fun a b => a.num * (b.den : Int) ≤ b.num * (a.den : Int)⟩

instance : LT Frac := ⟨fun a b => a.num * (b.den : Int) < b.num * (a.den : Int)⟩

instance (a b : Frac) : Decidable (a ≤ b) :=
  inferInstanceAs (Decidable (a.num * (b.den : Int) ≤ b.num * (a.den : Int)))

instance (a b : Frac) : Decidable (a < b) :=
  inferInstanceAs (Decidable (a.num * (b.den : Int) < b.num * (a.den : Int)))

/-- `abs(x)` on fractions. -/
def Frac.fabs (a : Frac) : Frac := ⟨(a.num.natAbs : Int), a.den⟩

/-- `⌊a⌋`, used for the `total % 1000 == 0` test. -/
def Frac.floorInt (a : Frac) : Int := Int.fdiv a.num (a.den : Int)

/-- Plain fraction printer used where Python interpolates a number into a
message; the exact digits never matter to any theorem. -/
def qRepr (q : Frac) : String :=
  if q.den == 1 then toString q.num
  else toString q.num ++ "/" ++ toString (q.den : Int)

/-! ## Data model (`backend/models/claim_data.py`, `backend/models/decision.py`) -/

/-- `DoctorInfo` from `claim_data.py`. -/
structure DoctorInfo where
  name : Option String := none
  registration_number : Option String := none
  specialty : Option String := none
  clinic_name : Option String := none
deriving DecidableEq, Repr

/-- `Procedure` from `claim_data.py`. -/
structure Procedure where
  name : String
  cost : Option Frac := none
deriving DecidableEq, Repr

/-- `CostBreakdown` from `claim_data.py`. -/
structure CostBreakdown where
  consultation : Frac := 0
  medicines : Frac := 0
  diagnostic_tests : Frac := 0
  procedures : Frac := 0
  other : Frac := 0
  total : Frac
deriving DecidableEq, Repr

/-- `DateInfo` from `claim_data.py`. -/
structure DateInfo where
  consultation_date : Option String := none
  prescription_date : Option String := none
  bill_date : Option String := none
deriving DecidableEq, Repr

/-- `ExtractedData` from `claim_data.py` (fields the engine and the fraud
detector read; `medications`, `extraction_errors` and `notes` are never
consulted by the core logic). -/
structure ExtractedData where
  document_type : String := "both"
  confidence_score : Frac := 0
  doctor_info : Option DoctorInfo := none
  patient_name : Option String := none
  diagnosis : Option String := none
  procedures : List Procedure := []
  diagnostic_tests : List String := []
  costs : Option CostBreakdown := none
  dates : Option DateInfo := none
  hospital_name : Option String := none
deriving DecidableEq, Repr

/-- One entry of `MemberInfo.previous_claims`: an untyped dict in Python; the
core only ever reads its `date` key (`prev_claim.get('date')`). -/
structure PrevClaim where
  date : Option String := none
deriving DecidableEq, Repr

/-- `MemberInfo` from `decision.py`. -/
structure MemberInfo where
  member_id : String
  member_name : String := ""
  policy_start_date : String
  policy_status : String := "active"
  ytd_claims : Frac := 0
  previous_claims : List PrevClaim := []
deriving DecidableEq, Repr

/-- `DecisionType` from `decision.py`. -/
inductive DecisionType where
  | APPROVED
  | REJECTED
  | PARTIAL
  | MANUAL_REVIEW
  | NOT_A_MEMBER
deriving DecidableEq, Repr

/-- `StepResult` from `decision.py`. -/
inductive StepResult where
  | PASS
  | FAIL
  | WARNING
  | SKIPPED
deriving DecidableEq, Repr

/-- `RejectionReason` from `decision.py`. -/
structure RejectionReason where
  category : String
  code : String
  message : String
  details : Option String := none
deriving DecidableEq, Repr

/-- `Deductions` from `decision.py`. -/
structure Deductions where
  copay : Frac := 0
  non_covered_items : Frac := 0
  exceeded_limits : Frac := 0
  network_discount : Frac := 0
deriving DecidableEq, Repr

/-- `AdjudicationSteps` from `decision.py`; every step starts `SKIPPED`. -/
structure AdjudicationSteps where
  eligibility : StepResult := .SKIPPED
  documents : StepResult := .SKIPPED
  coverage : StepResult := .SKIPPED
  limits : StepResult := .SKIPPED
  medical_necessity : StepResult := .SKIPPED
deriving DecidableEq, Repr

/-- `ClaimDecision` from `decision.py` (the `processing_notes` dict is never
written by the engine and is omitted). -/
structure ClaimDecision where
  decision : DecisionType
  approved_amount : Frac := 0
  claimed_amount : Frac
  deductions : Deductions := {}
  rejection_reasons : List RejectionReason := []
  notes : String := ""
  next_steps : String := ""
  confidence_score : Frac := 0
  fraud_flags : List String := []
  adjudication_steps : AdjudicationSteps := {}
  cashless_approved : Bool := false
  is_network_hospital : Bool := false
deriving DecidableEq, Repr

/-! ## Policy Rule Provider (`backend/services/policy_service.py`)

The policy document itself (`assignment/policy_terms.json`) is data loaded at
startup and is not part of the engine's code; the accessors below model the
`dict.get` chains of `policy_service.py` over a typed view of that document,
with the source's default for every absent entry. -/

/-- The sections of the loaded policy-terms document that the service reads;
`none`/`[]` models an absent JSON entry. -/
structure PolicyTerms where
  annual_limit : Option Frac := none
  per_claim_limit : Option Frac := none
  consultation_copay_percentage : Option Frac := none
  consultation_network_discount : Option Frac := none
  pharmacy_branded_drugs_copay : Option Frac := none
  initial_waiting : Option Nat := none
  pre_existing_diseases : Option Nat := none
  specific_ailments : List (String × Nat) := []
  exclusions : List String := []
  network_hospitals : List String := []
  minimum_claim_amount : Option Frac := none
  covered_tests : List String := []
  instant_approval_limit : Option Frac := none
deriving DecidableEq, Repr

def getAnnualLimit (p : PolicyTerms) : Frac := p.annual_limit.getD 0

def getPerClaimLimit (p : PolicyTerms) : Frac := p.per_claim_limit.getD 0

def getConsultationCopay (p : PolicyTerms) : Frac :=
  p.consultation_copay_percentage.getD 0

def getPharmacyCopay (p : PolicyTerms) : Frac :=
  p.pharmacy_branded_drugs_copay.getD 0

def getNetworkDiscount (p : PolicyTerms) : Frac :=
  p.consultation_network_discount.getD 0

/-- `PolicyService.get_waiting_period`: `initial` defaults to 30 days,
`pre_existing` to 365, any other condition looks up `specific_ailments`
(lower-cased key) and falls back to 0. -/
def getWaitingPeriod (p : PolicyTerms) (condition_type : String) : Nat :=
  if condition_type = "initial" then p.initial_waiting.getD 30
  else if condition_type = "pre_existing" then p.pre_existing_diseases.getD 365
  else
    match p.specific_ailments.lookup (lowerStr condition_type) with
    | some n => n
    | none => 0

/-- `PolicyService.is_excluded`: case-insensitive bidirectional substring
match against each exclusion entry. -/
def isExcluded (p : PolicyTerms) (service_or_condition : String) : Bool :=
  let sl := lowerStr service_or_condition
  p.exclusions.any (fun ex => strIn (lowerStr ex) sl || strIn sl (lowerStr ex))

/-- `PolicyService.is_network_hospital`: same bidirectional matching. -/
def isNetworkHospital (p : PolicyTerms) (hospital_name : String) : Bool :=
  let hl := lowerStr hospital_name
  p.network_hospitals.any (fun nh => strIn (lowerStr nh) hl || strIn hl (lowerStr nh))

def getMinimumClaimAmount (p : PolicyTerms) : Frac :=
  p.minimum_claim_amount.getD 500

/-- `PolicyService.requires_pre_authorization`: a test requires pre-auth when
some covered-test entry mentions "pre-auth" and contains the test's name. -/
def requiresPreAuthorization (p : PolicyTerms) (service : String) : Bool :=
  p.covered_tests.any (fun t =>
    strIn "pre-auth" (lowerStr t) && strIn (lowerStr service) (lowerStr t))

def getInstantApprovalLimit (p : PolicyTerms) : Frac :=
  p.instant_approval_limit.getD 5000

/-! ## Fraud Signal Detector (`backend/services/fraud_detector.py`) -/

/-- `FraudDetector._check_multiple_claims_same_day`. -/
def checkMultipleClaimsSameDay (e : ExtractedData) (m : MemberInfo) : List String :=
  match e.dates.bind (fun di => pyTruthy di.consultation_date) with
  | none => []
  | some claim_date =>
    let same_day_claims :=
      m.previous_claims.countP (fun pc => pc.date = some claim_date)
    if 2 ≤ same_day_claims then
      ["Multiple claims on same day (" ++ toString (same_day_claims + 1) ++ " total)"]
    else []

/-- `FraudDetector._check_claim_frequency`. -/
def checkClaimFrequency (m : MemberInfo) : List String :=
  let recent_claims := m.previous_claims.length
  if 10 ≤ recent_claims then
    ["High claim frequency: " ++ toString recent_claims ++ " claims in recent period"]
  else if 5 ≤ recent_claims then
    ["Elevated claim frequency: " ++ toString recent_claims ++ " claims in recent period"]
  else []

/-- Python `total % 1000 == 0` for the non-negative amounts the bills carry. -/
def isMultipleOf1000 (t : Frac) : Bool :=
  t == 1000 * Frac.ofInt (Frac.floorInt (t / 1000))

/-- `FraudDetector._check_suspicious_amounts`. -/
def checkSuspiciousAmounts (e : ExtractedData) : List String :=
  match e.costs with
  | none => []
  | some costs =>
    let total := costs.total
    (if 1000 < total ∧ isMultipleOf1000 total then
      ["Suspiciously round claim amount: ₹" ++ qRepr total]
    else []) ++
    (if 4800 ≤ total ∧ total ≤ 5000 then
      ["Claim amount suspiciously close to per-claim limit"]
    else [])

/-- `FraudDetector._check_diagnosis_appropriateness`: one flag for the first
matching vague term. -/
def checkDiagnosisAppropriateness (e : ExtractedData) : List String :=
  match pyTruthy e.diagnosis with
  | none => []
  | some diagnosis =>
    let dl := lowerStr diagnosis
    if ["general", "unspecified", "unknown", "other"].any (fun t => strIn t dl) then
      ["Vague diagnosis: " ++ diagnosis]
    else []

/-- The date-span part of `FraudDetector._check_document_consistency`: if at
least two of the three dates are present and every present date parses, flag a
span of more than 7 days; a parse failure raises inside the `try` and is
swallowed (no flag). -/
def checkDateSpan (di : DateInfo) : List String :=
  let dates := (pyTruthy di.consultation_date).toList
      ++ (pyTruthy di.prescription_date).toList
      ++ (pyTruthy di.bill_date).toList
  if 2 ≤ dates.length then
    match dates.mapM parseDate with
    | none => []
    | some dts =>
      let nums := dts.map dayNumber
      let span := nums.foldl max (nums.headD 0) - nums.foldl min (nums.headD 0)
      if 7 < span then
        ["Document dates span " ++ toString span ++ " days (suspicious)"]
      else []
  else []

/-- `FraudDetector._check_document_consistency`. -/
def checkDocumentConsistency (e : ExtractedData) : List String :=
  (match e.dates with
   | none => []
   | some di => checkDateSpan di) ++
  (match e.costs with
   | none => []
   | some costs =>
     let calculated_total := costs.consultation + costs.medicines
        + costs.diagnostic_tests + costs.procedures + costs.other
     if 0 < calculated_total ∧ 0 < costs.total then
       let diff := Frac.fabs (costs.total - calculated_total)
       if costs.total * (2 / 10) < diff then
         ["Cost breakdown doesn\x27t match total (₹" ++ qRepr diff ++ " discrepancy)"]
       else []
     else []) ++
  (match e.doctor_info with
   | none => ["Missing doctor registration number"]
   | some d =>
     match pyTruthy d.registration_number with
     | none => ["Missing doctor registration number"]
     | some _ => [])

/-- `FraudDetector.detect_fraud`: the five checks, in source order. -/
def detectFraud (e : ExtractedData) (m : MemberInfo) : List String :=
  checkMultipleClaimsSameDay e m ++ checkClaimFrequency m
    ++ checkSuspiciousAmounts e ++ checkDiagnosisAppropriateness e
    ++ checkDocumentConsistency e

/-- Per-flag weight used by `FraudDetector.calculate_fraud_risk_score`
(first matching substring pattern wins; anything unmatched scores 0.10). -/
def flagWeight (flag : String) : Frac :=
  let fl := lowerStr flag
  if strIn "multiple claims" fl then 3 / 10
  else if strIn "high frequency" fl || strIn "elevated frequency" fl then 25 / 100
  else if strIn "round amount" fl || strIn "close to limit" fl then 15 / 100
  else if strIn "vague diagnosis" fl then 1 / 10
  else if strIn "inconsistent" fl || strIn "discrepancy" fl then 2 / 10
  else if strIn "missing" fl then 15 / 100
  else 1 / 10

/-- `FraudDetector.calculate_fraud_risk_score`: 0 on no flags, otherwise the
sum of the per-flag weights capped at 1. -/
def calculateFraudRiskScore (fraud_flags : List String) : Frac :=
  if fraud_flags = [] then 0
  else
    let risk_score := fraud_flags.foldl (fun acc f => acc + flagWeight f) 0
    if risk_score ≤ 1 then risk_score else 1

/-! ## Adjudication Decision Engine (`backend/services/adjudication_engine.py`) -/

def policyInactiveReason (m : MemberInfo) : RejectionReason :=
  ⟨"eligibility", "POLICY_INACTIVE", "Policy is not active",
   some ("Policy status: " ++ m.policy_status)⟩

def waitingPeriodReason (initial_waiting : Nat) (days_diff : Int) : RejectionReason :=
  ⟨"eligibility", "WAITING_PERIOD",
   "Treatment within " ++ toString initial_waiting ++ "-day initial waiting period",
   some ("Policy active for only " ++ toString days_diff ++ " days")⟩

/-- `(policy_start + timedelta(days=waiting)).strftime('%Y-%m-%d')`. -/
def eligibleFromDetail (policy_start : Date) (waiting : Nat) : String :=
  "Eligible from " ++ renderDate (dateOfDayNumber (dayNumber policy_start + (waiting : Int)))

/-- `AdjudicationEngine._check_eligibility`: active-status check, then the
waiting-period checks guarded by a `try` that swallows date-parse errors
(an unparsable date passes the whole block). -/
def checkEligibility (p : PolicyTerms) (e : ExtractedData) (m : MemberInfo) :
    Bool × List RejectionReason :=
  if lowerStr m.policy_status ≠ "active" then
    (false, [policyInactiveReason m])
  else
    match e.dates.bind (fun di => pyTruthy di.consultation_date) with
    | none => (true, [])
    | some cd =>
      match parseDate m.policy_start_date, parseDate cd with
      | some policy_start, some consultation_date =>
        let days_diff : Int := dayNumber consultation_date - dayNumber policy_start
        let initial_waiting := getWaitingPeriod p "initial"
        if days_diff < (initial_waiting : Int) then
          (false, [waitingPeriodReason initial_waiting days_diff])
        else
          match pyTruthy e.diagnosis with
          | none => (true, [])
          | some diagnosis =>
            let dl := lowerStr diagnosis
            let hyper : Bool × List RejectionReason :=
              if strIn "hypertension" dl || strIn "blood pressure" dl then
                let hw := getWaitingPeriod p "hypertension"
                if days_diff < (hw : Int) then
                  (false, [⟨"eligibility", "WAITING_PERIOD",
                    "Hypertension has " ++ toString hw ++ "-day waiting period",
                    some (eligibleFromDetail policy_start hw)⟩])
                else (true, [])
              else (true, [])
            if strIn "diabetes" dl then
              let dw := getWaitingPeriod p "diabetes"
              if days_diff < (dw : Int) then
                (false, [⟨"eligibility", "WAITING_PERIOD",
                  "Diabetes has " ++ toString dw ++ "-day waiting period",
                  some (eligibleFromDetail policy_start dw)⟩])
              else hyper
            else hyper
      | _, _ => (true, [])

def missingDocumentsReason : RejectionReason :=
  ⟨"documentation", "MISSING_DOCUMENTS", "Prescription from registered doctor is required",
   some "Doctor information not found in documents"⟩

/-- `AdjudicationEngine._validate_documents`. -/
def validateDocuments (e : ExtractedData) : Bool × List RejectionReason :=
  match e.doctor_info with
  | none => (false, [missingDocumentsReason])
  | some d =>
    match pyTruthy d.name with
    | none => (false, [missingDocumentsReason])
    | some _ =>
      match pyTruthy d.registration_number with
      | some reg_num =>
        if !strHasChar reg_num '/' && !strHasChar reg_num '-' then
          (false, [⟨"documentation", "DOCTOR_REG_INVALID",
            "Invalid doctor registration number format",
            some ("Registration: " ++ reg_num)⟩])
        else
          match e.dates.bind (fun di => pyTruthy di.consultation_date) with
          | none =>
            (false, [⟨"documentation", "DATE_MISMATCH",
              "Consultation date missing from documents",
              some "Date required for claim processing"⟩])
          | some _ => (true, [])
      | none =>
        (false, [⟨"documentation", "DOCTOR_REG_INVALID",
          "Doctor registration number missing",
          some "Valid registration required for claim processing"⟩])

def cosmeticReason (name : String) : RejectionReason :=
  ⟨"coverage", "SERVICE_NOT_COVERED", "Cosmetic procedure not covered: " ++ name,
   some "Cosmetic procedures are excluded"⟩

def weightLossReason (name : String) : RejectionReason :=
  ⟨"coverage", "SERVICE_NOT_COVERED", "Weight loss treatment not covered: " ++ name,
   some "Weight loss treatments are excluded"⟩

/-- The procedure loop of `_verify_coverage`; `.error` is the early
`return False, reasons, False` taken when a weight-loss procedure is the
only procedure of the claim. -/
def coverageProcLoop (total_count : Nat) :
    List Procedure → List RejectionReason → Bool →
    Except (List RejectionReason) (List RejectionReason × Bool)
  | [], rs, partialCov => .ok (rs, partialCov)
  | proc :: rest, rs, partialCov =>
    let pn := lowerStr proc.name
    let cosmetic := strIn "cosmetic" pn || strIn "whitening" pn || strIn "aesthetic" pn
    let rs' := if cosmetic then rs ++ [cosmeticReason proc.name] else rs
    let partialCov' := if cosmetic then true else partialCov
    if strIn "weight loss" pn || strIn "bariatric" pn || strIn "diet plan" pn then
      let rs'' := rs' ++ [weightLossReason proc.name]
      if total_count == 1 then .error rs''
      else coverageProcLoop total_count rest rs'' true
    else coverageProcLoop total_count rest rs' partialCov'

/-- The diagnostic-test loop of `_verify_coverage`: the first test requiring
pre-authorization triggers `return False, reasons, False`. -/
def preAuthLoop (p : PolicyTerms) :
    List String → List RejectionReason → Option (List RejectionReason)
  | [], _ => none
  | test :: rest, rs =>
    if requiresPreAuthorization p test then
      some (rs ++ [⟨"coverage", "PRE_AUTH_MISSING", test ++ " requires pre-authorization",
        some "Pre-authorization must be obtained before treatment"⟩])
    else preAuthLoop p rest rs

/-- `_verify_coverage` after the diagnosis-exclusion check. -/
def verifyCoverageRest (p : PolicyTerms) (e : ExtractedData) :
    Bool × List RejectionReason × Bool :=
  match coverageProcLoop e.procedures.length e.procedures [] false with
  | .error rs => (false, rs, false)
  | .ok (rs, partialCov) =>
    match preAuthLoop p e.diagnostic_tests rs with
    | some rs' => (false, rs', false)
    | none =>
      if rs ≠ [] ∧ partialCov then (false, rs, true)
      else (true, [], false)

/-- `AdjudicationEngine._verify_coverage`, returning
`(all_covered, rejection_reasons, partial_coverage)`. -/
def verifyCoverage (p : PolicyTerms) (e : ExtractedData) :
    Bool × List RejectionReason × Bool :=
  match pyTruthy e.diagnosis with
  | some diagnosis =>
    if isExcluded p diagnosis then
      (false, [⟨"coverage", "EXCLUDED_CONDITION", "Condition is excluded from coverage",
        some ("Diagnosis: " ++ diagnosis)⟩], false)
    else verifyCoverageRest p e
  | none => verifyCoverageRest p e

/-- The tail of `_check_limits` after the annual-limit branch: the copay
computation followed by
`approved_amount = claimed_amount - copay - non_covered_items - exceeded_limits`,
where `claimed_amount` is the (possibly capped) local variable and
`exceeded_limits` is nevertheless deducted as well — faithful to the source. -/
def limitsFinish (p : PolicyTerms) (costs : CostBreakdown)
    (claimed_amount exceeded : Frac) (rs : List RejectionReason) :
    Bool × Frac × Deductions × List RejectionReason :=
  let copay :=
    (if 0 < costs.consultation then costs.consultation * (getConsultationCopay p / 100) else 0)
    + (if 0 < costs.medicines then costs.medicines * (getPharmacyCopay p / 100) else 0)
  let deductions : Deductions := { copay := copay, exceeded_limits := exceeded }
  let approved_amount := claimed_amount - deductions.copay
    - deductions.non_covered_items - deductions.exceeded_limits
  (true, approved_amount, deductions, rs)

/-- `AdjudicationEngine._check_limits`, returning
`(within_limits, approved_amount, deductions, rejection_reasons)`. -/
def checkLimits (p : PolicyTerms) (e : ExtractedData) (m : MemberInfo) :
    Bool × Frac × Deductions × List RejectionReason :=
  match e.costs with
  | none => (false, 0, {}, [⟨"limits", "BELOW_MIN_AMOUNT", "No costs found in claim", some ""⟩])
  | some costs =>
    let claimed_amount := costs.total
    let min_amount := getMinimumClaimAmount p
    if claimed_amount < min_amount then
      (false, 0, {}, [⟨"process", "BELOW_MIN_AMOUNT",
        "Claim below minimum amount of ₹" ++ qRepr min_amount,
        some ("Claimed: ₹" ++ qRepr claimed_amount)⟩])
    else
      let per_claim_limit := getPerClaimLimit p
      if per_claim_limit < claimed_amount then
        (false, 0, {}, [⟨"limits", "PER_CLAIM_EXCEEDED",
          "Claim exceeds per-claim limit of ₹" ++ qRepr per_claim_limit,
          some ("Claimed: ₹" ++ qRepr claimed_amount)⟩])
      else
        let annual_limit := getAnnualLimit p
        let ytd_with_current := m.ytd_claims + claimed_amount
        if annual_limit < ytd_with_current then
          let remaining := annual_limit - m.ytd_claims
          if remaining ≤ 0 then
            (false, 0, {}, [⟨"limits", "ANNUAL_LIMIT_EXCEEDED",
              "Annual limit of ₹" ++ qRepr annual_limit ++ " exhausted",
              some ("YTD claims: ₹" ++ qRepr m.ytd_claims)⟩])
          else
            limitsFinish p costs remaining (claimed_amount - remaining)
              [⟨"limits", "ANNUAL_LIMIT_EXCEEDED",
                "Partial approval: ₹" ++ qRepr remaining ++ " remaining in annual limit",
                some ("₹" ++ qRepr (claimed_amount - remaining) ++ " exceeds limit")⟩]
        else
          limitsFinish p costs claimed_amount 0 []

/-- `AdjudicationEngine._review_medical_necessity`. -/
def reviewMedicalNecessity (e : ExtractedData) : Bool × List RejectionReason :=
  match pyTruthy e.diagnosis with
  | none =>
    (false, [⟨"medical", "NOT_MEDICALLY_NECESSARY",
      "Diagnosis missing - cannot assess medical necessity",
      some "Clear diagnosis required for claim approval"⟩])
  | some _ => (true, [])

/-- `AdjudicationEngine._calculate_decision_confidence`, as a function of the
three pieces of data it reads: the decision type, the fraud flags and the
extraction confidence. -/
def calculateDecisionConfidence (decision : DecisionType) (fraud_flags : List String)
    (extraction_confidence : Frac) : Frac :=
  if decision = .REJECTED then
    if extraction_confidence + 1 / 10 ≤ 1 then extraction_confidence + 1 / 10 else 1
  else if decision = .MANUAL_REVIEW then 1 / 2
  else if 0 < fraud_flags.length then extraction_confidence * (8 / 10)
  else extraction_confidence

/-- `AdjudicationEngine._generate_notes`. -/
def generateNotes (d : ClaimDecision) : String :=
  match d.decision with
  | .APPROVED =>
    "Claim approved for ₹" ++ qRepr d.approved_amount
      ++ (if 0 < d.deductions.copay then
            " (after ₹" ++ qRepr d.deductions.copay ++ " copay)" else "")
      ++ (if d.is_network_hospital then
            ". Network discount of ₹" ++ qRepr d.deductions.network_discount ++ " applied"
          else "")
  | .REJECTED => "Claim rejected. " ++ toString d.rejection_reasons.length ++ " issues found."
  | .PARTIAL => "Partial approval: ₹" ++ qRepr d.approved_amount
      ++ " of ₹" ++ qRepr d.claimed_amount
  | .MANUAL_REVIEW => "Claim flagged for manual review due to unusual patterns"
  | .NOT_A_MEMBER => ""

/-- `AdjudicationEngine._generate_next_steps`. -/
def generateNextSteps (d : ClaimDecision) : String :=
  match d.decision with
  | .APPROVED =>
    if d.cashless_approved then "Cashless approval granted. No payment required from you."
    else "Approved amount will be reimbursed to your account within 5-7 business days."
  | .REJECTED =>
    "Please review rejection reasons. You may appeal this decision with additional documentation."
  | .PARTIAL =>
    "Partial amount approved. You may appeal for the rejected portion with additional justification."
  | .MANUAL_REVIEW =>
    "Our claims team will review your claim within 2-3 business days. You may be contacted for additional information."
  | .NOT_A_MEMBER => ""

/-- The initial `ClaimDecision(...)` object of `adjudicate_claim`: optimistic
`APPROVED`, every other field at its model default. -/
def initDecision (claimed : Frac) : ClaimDecision :=
  { decision := .APPROVED, claimed_amount := claimed }

/-- `extracted_data.costs.total if extracted_data.costs else 0.0`. -/
def pyClaimed (e : ExtractedData) : Frac :=
  match e.costs with
  | some c => c.total
  | none => 0

/-- The decision returned by the fraud gate
(`if fraud_risk >= 0.5: ... return decision`). -/
def fraudGateDecision (e : ExtractedData) (m : MemberInfo) : ClaimDecision :=
  { initDecision (pyClaimed e) with
    decision := .MANUAL_REVIEW,
    fraud_flags := detectFraud e m,
    notes := "Flagged for manual review due to fraud indicators (risk score: "
      ++ qRepr (calculateFraudRiskScore (detectFraud e m)) ++ ")" }

/-- `hospital_name = extracted_data.hospital_name or (doctor_info.clinic_name
if doctor_info else None)`, followed by the truthiness test of
`if hospital_name and ...`. -/
def resolveHospitalName (e : ExtractedData) : Option String :=
  match pyTruthy e.hospital_name with
  | some h => some h
  | none => e.doctor_info.bind (fun d => pyTruthy d.clinic_name)

/-- The tail of `adjudicate_claim` after a passing medical-necessity review:
the network-hospital block, confidence scoring and note generation. -/
def finalizeDecision (p : PolicyTerms) (e : ExtractedData) (flags : List String)
    (covStep limStep : StepResult) (dec : DecisionType) (approved : Frac)
    (ded : Deductions) (rs : List RejectionReason) : ClaimDecision :=
  let (is_network, ded', approved', cashless) :=
    match resolveHospitalName e with
    | some h =>
      if isNetworkHospital p h then
        let discount := approved * (getNetworkDiscount p / 100)
        (true, { ded with network_discount := discount }, approved - discount,
         decide (pyClaimed e ≤ getInstantApprovalLimit p))
      else (false, ded, approved, false)
    | none => (false, ded, approved, false)
  let steps : AdjudicationSteps :=
    { eligibility := .PASS, documents := .PASS, coverage := covStep,
      limits := limStep, medical_necessity := .PASS }
  let d0 : ClaimDecision :=
    { decision := dec, approved_amount := approved', claimed_amount := pyClaimed e,
      deductions := ded', rejection_reasons := rs,
      confidence_score := calculateDecisionConfidence dec flags e.confidence_score,
      fraud_flags := flags, adjudication_steps := steps,
      cashless_approved := cashless, is_network_hospital := is_network }
  { d0 with notes := generateNotes d0, next_steps := generateNextSteps d0 }

/-- The five rule steps of `adjudicate_claim` (everything after the fraud
gate).  Early `return`s become terminal record literals; note that a failing
limits step does *not* return early, and that a failing medical-necessity
review returns while keeping the approved amount and deductions the limits
step computed. -/
def adjudicateSteps (p : PolicyTerms) (e : ExtractedData) (m : MemberInfo) : ClaimDecision :=
  let flags := detectFraud e m
  match checkEligibility p e m with
  | (false, rs) =>
    { initDecision (pyClaimed e) with
      decision := .REJECTED, fraud_flags := flags,
      rejection_reasons := rs, adjudication_steps := { eligibility := .FAIL } }
  | (true, _) =>
    match validateDocuments e with
    | (false, rs) =>
      { initDecision (pyClaimed e) with
        decision := .REJECTED, fraud_flags := flags,
        rejection_reasons := rs,
        adjudication_steps := { eligibility := .PASS, documents := .FAIL } }
    | (true, _) =>
      match verifyCoverage p e with
      | (false, rs, false) =>
        { initDecision (pyClaimed e) with
          decision := .REJECTED, fraud_flags := flags,
          rejection_reasons := rs,
          adjudication_steps :=
            { eligibility := .PASS, documents := .PASS, coverage := .FAIL } }
      | (step3_pass, rs3, partialCov) =>
        let covStep := if step3_pass then StepResult.PASS else .FAIL
        let dec0 := if partialCov then DecisionType.PARTIAL else .APPROVED
        let rs0 := if partialCov then rs3 else []
        match checkLimits p e m with
        | (step4_pass, approved, ded, rs4) =>
          let limStep := if step4_pass then StepResult.PASS else .WARNING
          let dec1 := if step4_pass then dec0
            else if 0 < approved then DecisionType.PARTIAL else .REJECTED
          let rs1 := if step4_pass then rs0 else rs0 ++ rs4
          let failSteps : AdjudicationSteps :=
            { eligibility := .PASS, documents := .PASS, coverage := covStep,
              limits := limStep, medical_necessity := .FAIL }
          match reviewMedicalNecessity e with
          | (false, rs5) =>
            { decision := .REJECTED, approved_amount := approved,
              claimed_amount := pyClaimed e, deductions := ded,
              rejection_reasons := rs1 ++ rs5, fraud_flags := flags,
              adjudication_steps := failSteps }
          | (true, _) =>
            finalizeDecision p e flags covStep limStep dec1 approved ded rs1

/-- `AdjudicationEngine.adjudicate_claim`. -/
def adjudicateClaim (p : PolicyTerms) (e : ExtractedData) (m : MemberInfo) : ClaimDecision :=
  if (1 : Frac) / 2 ≤ calculateFraudRiskScore (detectFraud e m) then fraudGateDecision e m
  else adjudicateSteps p e m

/-! ## Concrete policy and inputs -/

/-- A policy-terms document with every section absent: each accessor then
returns its source-code default. -/
def emptyPolicyTerms : PolicyTerms := {}

/-- Modelled from the spec: the policy configuration document
(`assignment/policy_terms.json`, loaded by `PolicyService._load_policy_terms`)
is not part of the engine source tree.  Its limits follow §8 of the spec
(annual limit 50000, per-claim limit 5000, 30-day initial waiting period);
the network-hospital list holds one representative provider and every other
section is left absent so that the accessors supply the source defaults
(minimum claim amount 500, instant-approval limit 5000, copays 0). -/
def specPolicy : PolicyTerms :=
  { annual_limit := some 50000
    per_claim_limit := some 5000
    initial_waiting := some 30
    network_hospitals := ["Apollo Clinic"] }

/-- A routine prescription doctor used by the concrete scenarios. -/
def drSharma : DoctorInfo :=
  { name := some "Dr. Sharma", registration_number := some "KA/12345/2015" }

/-- Scenario D of the spec: a member 48000 into the 50000 annual limit
claiming 5000 (booked entirely under `other`, so no copay applies). -/
def extractedD : ExtractedData :=
  { confidence_score := 9 / 10
    doctor_info := some drSharma
    diagnosis := some "Viral fever"
    costs := some { other := 5000, total := 5000 }
    dates := some { consultation_date := some "2024-03-01" } }

def memberD : MemberInfo :=
  { member_id := "EMP001", policy_start_date := "2024-01-01"
    policy_status := "active", ytd_claims := 48000 }

/-- The Scenario D member with year-to-date claims of 49000. -/
def memberYtd49000 : MemberInfo := { memberD with ytd_claims := 49000 }

/-- The Scenario D member with year-to-date claims of 50000. -/
def memberYtd50000 : MemberInfo := { memberD with ytd_claims := 50000 }

/-- A claim for 700 with no diagnosis at all: every step up to and including
the limits step passes, then the medical-necessity review rejects. -/
def extractedNoDiagnosis : ExtractedData :=
  { confidence_score := 9 / 10
    doctor_info := some drSharma
    costs := some { other := 700, total := 700 }
    dates := some { consultation_date := some "2024-03-01" } }

def memberClean : MemberInfo :=
  { member_id := "EMP002", policy_start_date := "2024-01-01"
    policy_status := "active" }

/-- A flawless 700-rupee claim (used with the high-frequency member). -/
def extractedClean : ExtractedData :=
  { confidence_score := 9 / 10
    doctor_info := some drSharma
    diagnosis := some "Viral fever"
    costs := some { other := 700, total := 700 }
    dates := some { consultation_date := some "2024-03-01" } }

/-- A member with ten previous claims, none on the consultation date: the
fraud detector emits exactly the high-claim-frequency flag. -/
def memberTenClaims : MemberInfo :=
  { member_id := "EMP003", policy_start_date := "2024-01-01"
    policy_status := "active"
    previous_claims := List.replicate 10 { date := some "2024-01-05" } }

/-- A claim whose cost breakdown misses its stated total by 50%. -/
def extractedDiscrepancy : ExtractedData :=
  { confidence_score := 9 / 10
    doctor_info := some drSharma
    diagnosis := some "Viral fever"
    costs := some { consultation := 500, total := 1000 }
    dates := some { consultation_date := some "2024-03-01" } }

/-- A member with two previous claims dated on the consultation date, so the
same-day-duplicate flag (0.30) plus the cost-discrepancy flag (0.20) reach
the 0.5 fraud-gate threshold exactly. -/
def memberSameDay : MemberInfo :=
  { member_id := "EMP004", policy_start_date := "2024-01-01"
    policy_status := "active"
    previous_claims := List.replicate 2 { date := some "2024-03-01" } }

/-- A 100-rupee claim (below the 500 minimum) at a network hospital. -/
def extractedNetworkSmall : ExtractedData :=
  { confidence_score := 9 / 10
    doctor_info := some drSharma
    diagnosis := some "Viral fever"
    costs := some { other := 100, total := 100 }
    dates := some { consultation_date := some "2024-03-01" }
    hospital_name := some "Apollo Clinic" }

/-- A claim whose consultation date is not a parsable `YYYY-MM-DD` date. -/
def extractedBadDate : ExtractedData :=
  { dates := some { consultation_date := some "not-a-date" } }

def memberActive : MemberInfo :=
  { member_id := "EMP005", policy_start_date := "2024-01-01"
    policy_status := "active" }

/-- Scenario B of the spec: consultation ten days after the policy start. -/
def extractedScenarioB : ExtractedData :=
  { confidence_score := 9 / 10
    doctor_info := some drSharma
    diagnosis := some "Viral fever"
    costs := some { other := 700, total := 700 }
    dates := some { consultation_date := some "2024-09-11" } }

def memberScenarioB : MemberInfo :=
  { member_id := "EMP006", policy_start_date := "2024-09-01"
    policy_status := "active" }

/-! ## Claims -/

/-- C1.  The claimed invariant `0 ≤ approved_amount ≤ claimed_amount` fails:
on Scenario D of the spec (ytd 48000, annual limit 50000, claimed 5000, no
copayable components) the engine returns `approved_amount = -1000`, because
the annual-limit branch of `_check_limits` first caps the claimed amount at
the remaining 2000 and then deducts the 3000 excess a second time. -/
theorem c1_approved_amount_negative_on_scenario_d :
    (adjudicateClaim specPolicy extractedD memberD).approved_amount < 0 ∧
    (adjudicateClaim specPolicy extractedD memberD).approved_amount = -1000 ∧
    (adjudicateClaim specPolicy extractedD memberD).claimed_amount = 5000 := by
  decide

/-- C2.  On Scenario D the code does not behave as claimed: `_check_limits`
returns `within_limits = True` from the capping branch, so the limits step is
marked `PASS` (not `WARNING`), the decision stays `APPROVED` (not `PARTIAL`),
the `ANNUAL_LIMIT_EXCEEDED` reason is discarded, and the approved amount is
`remaining - excess - copay = -1000` instead of `remaining - copay = 2000`.
Only the recording of the excess 3000 as the `exceeded_limits` deduction
matches the claim. -/
theorem c2_scenario_d_limits_behaviour :
    (adjudicateClaim specPolicy extractedD memberD).decision = DecisionType.APPROVED ∧
    (adjudicateClaim specPolicy extractedD memberD).adjudication_steps.limits
      = StepResult.PASS ∧
    (adjudicateClaim specPolicy extractedD memberD).deductions.exceeded_limits = 3000 ∧
    (adjudicateClaim specPolicy extractedD memberD).approved_amount = -1000 ∧
    (adjudicateClaim specPolicy extractedD memberD).rejection_reasons = [] := by
  decide

/-- C3.  The accounting identity fails: a claim of 700 with no diagnosis
passes eligibility, documents, coverage and limits (approved 700, all
deductions 0) and is then rejected by the medical-necessity review — the
engine returns `REJECTED` while keeping `approved_amount = 700`, not 0. -/
theorem c3_rejected_decision_keeps_nonzero_approved :
    (adjudicateClaim specPolicy extractedNoDiagnosis memberClean).decision
      = DecisionType.REJECTED ∧
    (adjudicateClaim specPolicy extractedNoDiagnosis memberClean).approved_amount = 700 ∧
    (adjudicateClaim specPolicy extractedNoDiagnosis memberClean).deductions
      = ({} : Deductions) := by
  decide

/-- C4.  The claimed per-category weight fails on flags `detect_fraud`
actually produces: the frequency flag reads "High claim frequency: …", which
does not contain the scorer's pattern "high frequency", so it falls through
to the unclassified weight 0.10 instead of the claimed 0.25. -/
theorem c4_frequency_flag_scores_unclassified :
    detectFraud extractedClean memberTenClaims
      = ["High claim frequency: 10 claims in recent period"] ∧
    calculateFraudRiskScore (detectFraud extractedClean memberTenClaims) = 1 / 10 := by
  decide

/-- C5.  The confidence claim fails: a fraud-gated decision returns before
`_calculate_decision_confidence` is ever called, so the `MANUAL_REVIEW`
decision carries the model default confidence 0, not the claimed 0.5 (the
extraction confidence here is 0.9). -/
theorem c5_manual_review_confidence_not_half :
    (adjudicateClaim specPolicy extractedDiscrepancy memberSameDay).decision
      = DecisionType.MANUAL_REVIEW ∧
    extractedDiscrepancy.confidence_score = 9 / 10 ∧
    (adjudicateClaim specPolicy extractedDiscrepancy memberSameDay).confidence_score
      = 0 := by
  decide

/-- C6.  Antitonicity in `ytd_claims` fails: with the Scenario D claim fixed,
raising the member's year-to-date claims from 49000 (approved −3000, via the
double-deducting cap branch) to 50000 (annual limit exhausted, approved 0)
strictly increases the approved amount. -/
theorem c6_approved_amount_not_antitone_in_ytd :
    memberYtd49000.ytd_claims < memberYtd50000.ytd_claims ∧
    memberYtd49000 = { memberYtd50000 with ytd_claims := 49000 } ∧
    (adjudicateClaim specPolicy extractedD memberYtd49000).approved_amount
      < (adjudicateClaim specPolicy extractedD memberYtd50000).approved_amount := by
  decide

/-- C7.  The fraud gate has absolute precedence: whenever the computed risk
score reaches 0.5, `adjudicate_claim` returns `MANUAL_REVIEW` with all five
adjudication steps still `SKIPPED`. -/
theorem c7_fraud_gate_precedence (p : PolicyTerms) (e : ExtractedData) (m : MemberInfo)
    (h : (1 : Frac) / 2 ≤ calculateFraudRiskScore (detectFraud e m)) :
    (adjudicateClaim p e m).decision = DecisionType.MANUAL_REVIEW ∧
    (adjudicateClaim p e m).adjudication_steps.eligibility = StepResult.SKIPPED ∧
    (adjudicateClaim p e m).adjudication_steps.documents = StepResult.SKIPPED ∧
    (adjudicateClaim p e m).adjudication_steps.coverage = StepResult.SKIPPED ∧
    (adjudicateClaim p e m).adjudication_steps.limits = StepResult.SKIPPED ∧
    (adjudicateClaim p e m).adjudication_steps.medical_necessity = StepResult.SKIPPED := by
  unfold adjudicateClaim
  rw [if_pos h]
  exact ⟨rfl, rfl, rfl, rfl, rfl, rfl⟩

/-- Witness for C7 at a concrete input whose risk score is exactly 0.5. -/
theorem c7_fraud_gate_precedence_witness :
    ((1 : Frac) / 2 ≤ calculateFraudRiskScore (detectFraud extractedDiscrepancy memberSameDay)) ∧
    (adjudicateClaim specPolicy extractedDiscrepancy memberSameDay).decision
      = DecisionType.MANUAL_REVIEW :=
  ⟨by decide,
   (c7_fraud_gate_precedence specPolicy extractedDiscrepancy memberSameDay (by decide)).1⟩

/-- C8.  Fail-open on unparsable dates: for an active member, when the claim
carries a (truthy) consultation date and either it or the policy-start date
fails to parse as a date, the `try/except` around the waiting-period checks
swallows the error and the eligibility step passes with no rejection reason.
(Totality of `adjudicate_claim` holds by construction of the embedding:
`adjudicateClaim` is a total function into `ClaimDecision`.) -/
theorem c8_eligibility_fail_open (p : PolicyTerms) (e : ExtractedData) (m : MemberInfo)
    (cd : String)
    (hact : lowerStr m.policy_status = "active")
    (hcd : e.dates.bind (fun di => pyTruthy di.consultation_date) = some cd)
    (hbad : parseDate m.policy_start_date = none ∨ parseDate cd = none) :
    checkEligibility p e m = (true, []) := by
  have hne : ¬ (lowerStr m.policy_status ≠ "active") := by simp [hact]
  unfold checkEligibility
  rw [if_neg hne]
  simp only [hcd]
  rcases hbad with hb | hb
  · simp only [hb]
  · cases hp : parseDate m.policy_start_date with
    | none => simp only [hp]
    | some ps => simp only [hp, hb]

/-- Witness for C8: consultation date "not-a-date" on an active policy. -/
theorem c8_eligibility_fail_open_witness :
    checkEligibility specPolicy extractedBadDate memberActive = (true, []) :=
  c8_eligibility_fail_open specPolicy extractedBadDate memberActive "not-a-date"
    (by decide) (by decide) (Or.inr (by decide))

/-- C9.  Waiting-period rejection: when the fraud gate does not fire, the
policy is active, both dates parse, and the consultation falls fewer days
after the policy start than `get_waiting_period('initial')`, the engine
returns `REJECTED`, marks the eligibility step `FAIL`, and the only rejection
reason carries code `WAITING_PERIOD`.  The final two conjuncts record the
accessor defaults the claim quotes: an absent configuration entry makes the
initial waiting period 30 days, and a condition name not present in
`specific_ailments` falls back to 0. -/
theorem c9_waiting_period_rejection (p : PolicyTerms) (e : ExtractedData) (m : MemberInfo)
    (cd : String) (ps c : Date)
    (hgate : ¬ ((1 : Frac) / 2 ≤ calculateFraudRiskScore (detectFraud e m)))
    (hact : lowerStr m.policy_status = "active")
    (hcd : e.dates.bind (fun di => pyTruthy di.consultation_date) = some cd)
    (hps : parseDate m.policy_start_date = some ps)
    (hc : parseDate cd = some c)
    (hlt : dayNumber c - dayNumber ps < (getWaitingPeriod p "initial" : Int)) :
    (adjudicateClaim p e m).decision = DecisionType.REJECTED ∧
    (adjudicateClaim p e m).adjudication_steps.eligibility = StepResult.FAIL ∧
    (adjudicateClaim p e m).rejection_reasons.map RejectionReason.code
      = ["WAITING_PERIOD"] ∧
    getWaitingPeriod emptyPolicyTerms "initial" = 30 ∧
    (∀ (q : PolicyTerms) (cond : String), cond ≠ "initial" → cond ≠ "pre_existing" →
      q.specific_ailments.lookup (lowerStr cond) = none → getWaitingPeriod q cond = 0) := by
  have hel : checkEligibility p e m
      = (false, [waitingPeriodReason (getWaitingPeriod p "initial")
          (dayNumber c - dayNumber ps)]) := by
    have hne : ¬ (lowerStr m.policy_status ≠ "active") := by simp [hact]
    unfold checkEligibility
    rw [if_neg hne]
    simp only [hcd, hps, hc]
    rw [if_pos hlt]
  have hadj : adjudicateClaim p e m
      = { initDecision (pyClaimed e) with
          decision := .REJECTED, fraud_flags := detectFraud e m,
          rejection_reasons := [waitingPeriodReason (getWaitingPeriod p "initial")
            (dayNumber c - dayNumber ps)],
          adjudication_steps := { eligibility := .FAIL } } := by
    unfold adjudicateClaim
    rw [if_neg hgate]
    unfold adjudicateSteps
    simp only [hel]
  refine ⟨?_, ?_, ?_, by decide, ?_⟩
  · rw [hadj]
  · rw [hadj]
  · rw [hadj]; rfl
  · intro q cond h1 h2 h3
    simp only [getWaitingPeriod, if_neg h1, if_neg h2, h3]

/-- Witness for C9 at Scenario B: consultation ten days after the policy
start, against the 30-day initial waiting period. -/
theorem c9_waiting_period_rejection_witness :
    (adjudicateClaim specPolicy extractedScenarioB memberScenarioB).decision
      = DecisionType.REJECTED ∧
    (adjudicateClaim specPolicy extractedScenarioB memberScenarioB).adjudication_steps.eligibility
      = StepResult.FAIL ∧
    (adjudicateClaim specPolicy extractedScenarioB memberScenarioB).rejection_reasons.map
      RejectionReason.code = ["WAITING_PERIOD"] :=
  let h := c9_waiting_period_rejection specPolicy extractedScenarioB memberScenarioB
    "2024-09-11" ⟨2024, 9, 1⟩ ⟨2024, 9, 11⟩ (by decide) (by decide) (by decide)
    (by decide) (by decide) (by decide)
  ⟨h.1, h.2.1, h.2.2.1⟩

/-- C10.  A rejected claim can still be granted cashless approval: a
100-rupee claim (below the 500 minimum) at a network hospital passes
eligibility, documents, coverage and medical necessity; the limits step
rejects it with approved amount 0, yet since the limits step does not
return early, the network-hospital block still runs — marking the hospital
in-network and granting cashless approval because the claimed 100 is at most
the 5000 instant-approval limit. -/
theorem c10_rejected_claim_cashless_approved :
    (adjudicateClaim specPolicy extractedNetworkSmall memberClean).decision
      = DecisionType.REJECTED ∧
    (adjudicateClaim specPolicy extractedNetworkSmall memberClean).approved_amount = 0 ∧
    (adjudicateClaim specPolicy extractedNetworkSmall memberClean).is_network_hospital = true ∧
    (adjudicateClaim specPolicy extractedNetworkSmall memberClean).cashless_approved = true ∧
    (adjudicateClaim specPolicy extractedNetworkSmall memberClean).rejection_reasons.map
      RejectionReason.code = ["BELOW_MIN_AMOUNT"] := by
  decide

end ClaimPlum
